import Mathlib

/-!
Verification of the OSA (optical spectrum analyser) remote-control client
`OSASocket.py` against its specification.

Modelling conventions for the shallow embedding:

* Python real numbers are modelled exactly as rationals (`ℚ`), so the repeated
  division by 10 in `double2expStr` is exact arithmetic.
* Python's `str()` rendering of a nonnegative float is modelled by `floatStr`
  (integer part, a dot, then the fractional digits produced by long division,
  with a single `0` digit when the value is integral, as in `str(5.0) == "5.0"`).
  `str()` of an `int` is modelled by `natStr` / `intStr`.
* Socket traffic is modelled by returning the list of strings handed to
  `socket.send`, in order.  A `print` of a validation message is modelled as a
  Boolean "reported" flag.  A Python runtime exception that aborts a method is
  modelled as an `Option PyError` alongside the commands sent before it.
* `exitWin()` (process exit) after a failed authentication is modelled as the
  session ending in the `failed` state with `AuthenticationError` signalled,
  following the spec's library-form reading of process termination.
-/

set_option autoImplicit false

namespace OSASocket

/-- One decimal digit as a character (`0`–`9`); total on `ℕ` with a dummy
default that no renderer below ever reaches. -/
def digitChar : ℕ → Char
  | 0 => '0'
  | 1 => '1'
  | 2 => '2'
  | 3 => '3'
  | 4 => '4'
  | 5 => '5'
  | 6 => '6'
  | 7 => '7'
  | 8 => '8'
  | 9 => '9'
  | _ => '?'

/-- Digits of `n` in base 10, most significant first.  Structural recursion on
a fuel argument (`n + 1` steps always suffice, since `n / 10 < n` for `n ≥ 10`),
so that the kernel can evaluate it on concrete inputs. -/
def natCharsAux : ℕ → ℕ → List Char
  | 0, _ => []
  | fuel + 1, n =>
    if n < 10 then [digitChar n]
    else natCharsAux fuel (n / 10) ++ [digitChar (n % 10)]

/-- Decimal digit list of a natural number, models Python `str` on a
nonnegative `int`. -/
def natChars (n : ℕ) : List Char := natCharsAux (n + 1) n

/-- Decimal string of a natural number (Python `str(n)` for `n : int ≥ 0`). -/
def natStr (n : ℕ) : String := String.mk (natChars n)

/-- Decimal string of an integer (Python `str(i)` for `i : int`). -/
def intStr (i : ℤ) : String := (if i < 0 then "-" else "") ++ natStr i.natAbs

/-- Fractional digits of `num / den` (`num < den`) by long division; stops at a
zero remainder, bounded by fuel.  Models the digits Python prints after the
decimal point of a float. -/
def fracCharsAux (den : ℕ) : ℕ → ℕ → List Char
  | 0, _ => []
  | fuel + 1, num =>
    if num = 0 then []
    else digitChar (num * 10 / den) :: fracCharsAux den fuel (num * 10 % den)

/-- Character list behind `floatStr`: integer part, a dot, then the
fractional digits (a single `0` when the value is integral). -/
def floatChars (q : ℚ) : List Char :=
  natChars (q.num.toNat / q.den) ++ '.' ::
    (if q.num.toNat % q.den = 0 then ['0']
     else fracCharsAux q.den 40 (q.num.toNat % q.den))

/-- Python `str()` of a nonnegative float, modelled on `ℚ`: integer part, a
dot, then the fractional digits, as in `str(5.0) == "5.0"`. -/
def floatStr (q : ℚ) : String := String.mk (floatChars q)

/-- The Value-Encoder loop of `double2expStr` (`OSASocket.py` lines 158–162):
starting from an already once-divided magnitude and exponent 1, keep dividing
by 10 and bumping the exponent while the magnitude is still `> 10`. -/
def expLoop (d : ℚ) (e : ℕ) : ℚ × ℕ :=
  if 10 < d then expLoop (d / 10) (e + 1) else (d, e)
termination_by Nat.ceil d
decreasing_by
  have h10 : (0 : ℚ) < 10 := by norm_num
  have hd0 : (0 : ℚ) ≤ d / 10 := le_of_lt (div_pos (lt_trans h10 (by assumption)) h10)
  have hceil : ((Nat.ceil (d / 10) : ℚ)) < d / 10 + 1 := Nat.ceil_lt_add_one hd0
  have hlt : d / 10 + 1 < d := by linarith
  exact_mod_cast Nat.lt_ceil.mpr (lt_trans hceil hlt)

/-- The Value Encoder `double2expStr` (`OSASocket.py` lines 153–163), on the
exact-rational model of Python floats.  Note the source returns `str(digit)`
without the sign `flag` in the `digit < 10` branch. -/
def double2expStr (digit : ℚ) : String :=
  let flag : String := if digit < 0 then "-" else ""
  let a : ℚ := |digit|
  if a < 10 then floatStr a
  else
    let p := expLoop (a / 10) 1
    flag ++ floatStr p.1 ++ "E" ++ natStr p.2

/-- Spec-side definition (§4.3 / §8): the sign-prefixed decimal string of a
value, `sign + decimalString(value)`.  Used only to compare the Value Encoder
against the spec's words. -/
def signedDecimalString (v : ℚ) : String :=
  (if v < 0 then "-" else "") ++ floatStr |v|

/-- Python `str.upper()`, modelled character by character (identical to
Python's on ASCII, the only characters the Command Catalogue compares). -/
def pyUpper (s : String) : String := String.mk (s.data.map Char.toUpper)

/-- Session states of the handshake (spec §3). -/
inductive SessionState
  | connecting
  | awaitingPasswordPrompt
  | authenticated
  | failed
  deriving DecidableEq

/-- Outcome of the credential handshake: the strings sent on the socket, the
final session state, and whether `AuthenticationError` was signalled (the
source prints an error and terminates the process via `exitWin()`). -/
structure HandshakeResult where
  sent : List String
  state : SessionState
  authError : Bool
  deriving DecidableEq

/-- The credential handshake of `OSA.__init__` (`OSASocket.py` lines 38–46),
after a successful TCP connect: send `open "<username>"`, receive a reply
(printed, not validated), send the raw password, receive a reply `reply2`;
the session is authenticated exactly when `reply2[:5] == 'ready'`. -/
def sessionHandshake (username password _reply1 reply2 : String) : HandshakeResult :=
  let sent := ["open \"" ++ username ++ "\"", password]
  if reply2.take 5 = "ready" then
    ⟨sent, SessionState.authenticated, false⟩
  else
    ⟨sent, SessionState.failed, true⟩

/-- Result of a Command Catalogue operation with local argument validation:
the strings handed to `socket.send`, in order, and whether a validation
failure was reported (the source `print`s a message). -/
structure CatalogueResult where
  sent : List String
  validationFailed : Bool
  deriving DecidableEq

/-- The mode list of `OSA.sweep` (`OSASocket.py` line 70).  The source literal
is `['AUTO', 'REPEAT', 'SINGLE' '3', '2', '1']`: Python concatenates the
adjacent string literals `'SINGLE' '3'`, so the list's third element is the
single string `SINGLE3` and `SINGLE` itself is not a member. -/
def sweepValidModes : List String := ["AUTO", "REPEAT", "SINGLE3", "2", "1"]

/-- `OSA.sweep` (`OSASocket.py` lines 61–74): if the upper-cased mode is in
`sweepValidModes`, send the sweep-mode command then the initiate command;
otherwise report `unsuitable sweep mode` and send nothing. -/
def sweep (sweepMode : String) : CatalogueResult :=
  if pyUpper sweepMode ∈ sweepValidModes then
    ⟨[":INITIATE:SMODE " ++ sweepMode, ":INITIATE"], false⟩
  else
    ⟨[], true⟩

/-- `OSA.span` (`OSASocket.py` lines 76–83): send the start-wavelength and
stop-wavelength commands, start first, each with the decimal string of the
integer argument and an `NM` suffix. -/
def span (start stop : ℤ) : List String :=
  [":SENSE:WAVELENGTH:START " ++ intStr start ++ "NM",
   ":SENSE:WAVELENGTH:STOP " ++ intStr stop ++ "NM"]

/-- `OSA.level` (`OSASocket.py` lines 85–105).  Note line 99: the manual
reference-level command `...:Y1:SCALE:RELVEL` is built from
`double2expStr(logScale)` — the `refLevel` parameter is never used. -/
def level (refLevel logScale : ℚ) (autoRefLevel : Bool)
    (subLog offsetLevel : ℚ) (autoSubScale : Bool) : List String :=
  [":DISPLAY:WINDOW:TRACE:Y1:SCALE:PDIVISION " ++ double2expStr logScale]
  ++ (if autoRefLevel then
        ["CALCULATE:MARKER:MAXIMUM:SRLEVEL:AUTO"]
      else
        [":DISPLAY:WINDOW:Y1:SCALE:RELVEL " ++ double2expStr logScale])
  ++ [":DISPLAY:WINDOW:TRACE:Y2:SCALE:PDIVISION " ++ double2expStr subLog]
  ++ (if autoSubScale then
        [":DISPLAY:WINDOW:TRACE:Y2:SCALE:AUTO ON"]
      else
        [":DISPLAY:WINDOW:TRACE:Y2:SCALE:AUTO OFF",
         ":DISPLAY:WINDOW:TRACE:Y2:SCALE:OLEVEL " ++ double2expStr offsetLevel])

/-- Python runtime errors relevant to this module. -/
inductive PyError
  | nameError (name : String)
  deriving DecidableEq

/-- Valid trace channels of `OSA.trace` (`OSASocket.py` line 122). -/
def traceValidChannels : List String := ["A", "B", "C", "D", "E", "F", "G"]

/-- The trace-math dictionary of `OSA.trace` (`OSASocket.py` line 128):
`{1: 'A-B (LOG)', 2: 'B-A (LOG)', 3: 'A+B (LOG)'}`. -/
def calcMode (k : ℤ) : Option String :=
  if k = 1 then some "A-B (LOG)"
  else if k = 2 then some "B-A (LOG)"
  else if k = 3 then some "A+B (LOG)"
  else none

/-- Outcome of `OSA.trace`: commands sent before any exception, the
validation-failure report flag, and the Python exception, if one aborted the
method. -/
structure TraceResult where
  sent : List String
  validationFailed : Bool
  error : Option PyError
  deriving DecidableEq

/-- `OSA.trace` (`OSASocket.py` lines 111–129).  The channel is upper-cased;
an invalid channel is reported but execution falls through and the active /
state commands are still sent with that channel.  When `calcC` is nonzero
(Python truthiness of `if calcC:`), line 129 evaluates `calcMode[calc]` where
`calc` is an unbound name (the parameter is `calcC`), so a `NameError` is
raised before the math command is sent.  The `write` parameter is accepted
but never used by the source. -/
def trace (channel : String) (write disp : Bool) (calcC : ℤ) : TraceResult :=
  let ch := pyUpper channel
  let validationFailed := if ch ∈ traceValidChannels then false else true
  let cmds := [":TRACE:ACTIVE TR" ++ ch,
               ":TRACE:STATE:TR" ++ ch ++ " " ++ (if disp then "ON" else "OFF")]
  if calcC ≠ 0 then
    ⟨cmds, validationFailed, some (PyError.nameError "calc")⟩
  else
    ⟨cmds, validationFailed, none⟩

/-- Valid channels of `OSA.saveFile` (`OSASocket.py` line 139). -/
def saveFileValidChannels : List String := ["A", "B", "C"]

/-- `OSA.saveFile` (`OSASocket.py` lines 131–143): the channel is upper-cased;
an invalid channel is reported but the single store-trace command is still
sent with that channel. -/
def saveFile (filename form channel memory : String) : CatalogueResult :=
  let ch := pyUpper channel
  let validationFailed := if ch ∈ saveFileValidChannels then false else true
  ⟨[":MMEMORY:STORE:TRACE TR" ++ ch ++ "," ++ form ++ "\"" ++ filename ++ "\"," ++ memory],
   validationFailed⟩

/-- The completeness indication of `OSA.send` (`OSASocket.py` lines 51–56):
the socket accepted `acceptedBytes` bytes of `sendStr.encode()` and the
method compares that count against `len(sendStr)` — the number of
*characters* of the unencoded string.  The number of bytes actually
requested is `sendStr.utf8ByteSize` (UTF-8 is Python 3's default `encode()`).
The method only prints one of two messages; it raises nothing. -/
def sendReportsComplete (sendStr : String) (acceptedBytes : ℕ) : Bool :=
  acceptedBytes == sendStr.length

/-! ### Helper lemmas about the decimal renderers and the encoder loop -/

theorem digitChar_ne_E (d : ℕ) : digitChar d ≠ 'E' := by
  unfold digitChar
  split <;> decide

theorem natCharsAux_not_E (fuel n : ℕ) : 'E' ∉ natCharsAux fuel n := by
  induction fuel generalizing n with
  | zero => simp [natCharsAux]
  | succ f ih =>
    rw [natCharsAux]
    split
    · simp only [List.mem_singleton]
      exact fun h => digitChar_ne_E _ h.symm
    · simp only [List.mem_append, List.mem_singleton]
      rintro (h | h)
      · exact ih _ h
      · exact digitChar_ne_E _ h.symm

theorem fracCharsAux_not_E (den fuel num : ℕ) : 'E' ∉ fracCharsAux den fuel num := by
  induction fuel generalizing num with
  | zero => simp [fracCharsAux]
  | succ f ih =>
    rw [fracCharsAux]
    split
    · simp
    · simp only [List.mem_cons]
      rintro (h | h)
      · exact digitChar_ne_E _ h.symm
      · exact ih _ h

theorem floatChars_not_E (q : ℚ) : 'E' ∉ floatChars q := by
  unfold floatChars
  intro h
  rcases List.mem_append.mp h with h | h
  · exact natCharsAux_not_E _ _ h
  · rcases List.mem_cons.mp h with h | h
    · exact absurd h (by decide)
    · split at h
      · simp at h
      · exact fracCharsAux_not_E _ _ _ h

theorem floatStr_not_E (q : ℚ) : 'E' ∉ (floatStr q).data :=
  floatChars_not_E q

/-- The encoder loop preserves `value * 10 ^ exponent` exactly: arithmetic on
`ℚ` is exact, so repeated division by 10 loses nothing. -/
theorem expLoop_spec (d : ℚ) (e : ℕ) :
    (expLoop d e).1 * 10 ^ (expLoop d e).2 = d * 10 ^ e := by
  induction d, e using expLoop.induct with
  | case1 d e hlt ih =>
    rw [expLoop, if_pos hlt, ih, pow_succ]
    field_simp
    ring
  | case2 d e hnlt =>
    rw [expLoop, if_neg hnlt]

theorem double2expStr_ten : double2expStr (10 : ℚ) = "1.0E1" := by
  rw [double2expStr]
  norm_num
  rw [expLoop]
  norm_num
  decide

theorem double2expStr_neg_ten : double2expStr (-10 : ℚ) = "-1.0E1" := by
  rw [double2expStr]
  norm_num
  rw [expLoop]
  norm_num
  decide

theorem double2expStr_neg_fifteen : double2expStr (-15 : ℚ) = "-1.5E1" := by
  rw [double2expStr]
  norm_num
  rw [show (3 / 2 : ℚ) = Rat.mk' 3 2 by
    rw [Rat.mk'_eq_divInt, Rat.divInt_eq_div]; norm_num]
  rw [expLoop]
  norm_num
  decide

end OSASocket

open OSASocket

/-! ### Claim theorems -/

/-- C1: after sending the username and password during session construction,
the session is Authenticated if and only if the first 5 characters of the
reply to the password equal `ready`; every other reply leaves the session
Failed with `AuthenticationError` signalled. -/
theorem c1_handshake_ready_iff_authenticated (u p r1 r2 : String) :
    (sessionHandshake u p r1 r2).sent = ["open \"" ++ u ++ "\"", p]
    ∧ ((sessionHandshake u p r1 r2).state = SessionState.authenticated ↔
        r2.take 5 = "ready")
    ∧ (r2.take 5 ≠ "ready" →
        (sessionHandshake u p r1 r2).state = SessionState.failed
        ∧ (sessionHandshake u p r1 r2).authError = true) := by
  unfold sessionHandshake
  by_cases h : r2.take 5 = "ready" <;> simp [h]

/-- C1 witness: a reply not starting with `ready` leaves the session Failed
with `AuthenticationError`. -/
theorem c1_handshake_failed_witness :
    "nope!".take 5 ≠ "ready"
    ∧ ((sessionHandshake "anonymous" " " "hi" "nope!").state = SessionState.failed
       ∧ (sessionHandshake "anonymous" " " "hi" "nope!").authError = true) :=
  ⟨by decide,
   (c1_handshake_ready_iff_authenticated "anonymous" " " "hi" "nope!").2.2 (by decide)⟩

/-- C2 counterexample: at `v = -5` (with `|v| < 10`) the encoder returns
`"5.0"`, not the sign-prefixed decimal string `"-5.0"` claimed by the spec:
the `digit < 10` branch of `double2expStr` returns `str(digit)` without the
sign flag. -/
theorem c2_negative_sign_dropped :
    |(-5 : ℚ)| < 10
    ∧ double2expStr (-5 : ℚ) = "5.0"
    ∧ signedDecimalString (-5 : ℚ) = "-5.0"
    ∧ double2expStr (-5 : ℚ) ≠ signedDecimalString (-5 : ℚ) := by
  have h1 : double2expStr (-5 : ℚ) = "5.0" := by
    rw [double2expStr]; norm_num; decide
  have h2 : signedDecimalString (-5 : ℚ) = "-5.0" := by
    rw [signedDecimalString]; norm_num; decide
  refine ⟨by norm_num, h1, h2, ?_⟩
  rw [h1, h2]
  decide

/-- C2 (amended): for every value with `|v| < 10` the encoder returns the
decimal string of `|v|` with no `E` character; the sign prefix is computed
but not prepended in this branch, so negative values lose their sign.  In
particular `double2expStr 5 = "5.0"`. -/
theorem c2_small_magnitude_plain_decimal :
    (∀ v : ℚ, |v| < 10 →
      double2expStr v = floatStr |v| ∧ 'E' ∉ (double2expStr v).data)
    ∧ double2expStr (5 : ℚ) = "5.0" := by
  constructor
  · intro v h
    have hd : double2expStr v = floatStr |v| := by
      simp only [double2expStr]
      rw [if_pos h]
    refine ⟨hd, ?_⟩
    rw [hd]
    exact floatStr_not_E |v|
  · rw [double2expStr]; norm_num; decide

/-- C2 witness: the amended claim at `v = 5`. -/
theorem c2_small_magnitude_witness :
    |(5 : ℚ)| < 10
    ∧ (double2expStr (5 : ℚ) = floatStr |(5 : ℚ)|
       ∧ 'E' ∉ (double2expStr (5 : ℚ)).data) :=
  ⟨by norm_num, c2_small_magnitude_plain_decimal.1 5 (by norm_num)⟩

/-- C3: for `|v| ≥ 10` the encoder returns `sign ++ mantissa ++ "E" ++
exponent` where `mantissa * 10 ^ exponent` reconstructs `|v|` exactly (the
repeated division by 10 is exact on the rational model); in particular
`double2expStr (-15) = "-1.5E1"`. -/
theorem c3_large_magnitude_scientific :
    (∀ v : ℚ, 10 ≤ |v| → ∃ m : ℚ, ∃ e : ℕ,
      double2expStr v
        = (if v < 0 then "-" else "") ++ floatStr m ++ "E" ++ natStr e
      ∧ m * 10 ^ e = |v|)
    ∧ double2expStr (-15 : ℚ) = "-1.5E1" := by
  constructor
  · intro v h
    refine ⟨(expLoop (|v| / 10) 1).1, (expLoop (|v| / 10) 1).2, ?_, ?_⟩
    · simp only [double2expStr]
      rw [if_neg (not_lt.mpr h)]
    · rw [expLoop_spec, pow_one]
      exact div_mul_cancel₀ _ (by norm_num)
  · exact double2expStr_neg_fifteen

/-- C3 witness: the scientific form at `v = -15`. -/
theorem c3_large_magnitude_witness :
    10 ≤ |(-15 : ℚ)|
    ∧ ∃ m : ℚ, ∃ e : ℕ,
        double2expStr (-15 : ℚ)
          = (if (-15 : ℚ) < 0 then "-" else "") ++ floatStr m ++ "E" ++ natStr e
        ∧ m * 10 ^ e = |(-15 : ℚ)| :=
  ⟨by norm_num, c3_large_magnitude_scientific.1 (-15) (by norm_num)⟩

/-- C4: evaluation of `sweep` at the failing input `SINGLE` and around it.
The source's membership list is `['AUTO', 'REPEAT', 'SINGLE' '3', '2', '1']`;
Python concatenates the adjacent literals into `SINGLE3`, so `SINGLE` — valid
per the method's own docstring — is rejected and no command is sent, while
`AUTO` and `REPEAT` behave as claimed and invalid modes like `bogus` are
rejected locally with nothing sent. -/
theorem c4_sweep_single_rejected :
    sweep "SINGLE" = ⟨[], true⟩
    ∧ sweep "single" = ⟨[], true⟩
    ∧ sweep "bogus" = ⟨[], true⟩
    ∧ sweep "AUTO" = ⟨[":INITIATE:SMODE AUTO", ":INITIATE"], false⟩
    ∧ sweep "repeat" = ⟨[":INITIATE:SMODE repeat", ":INITIATE"], false⟩
    ∧ "SINGLE" ∉ sweepValidModes
    ∧ "SINGLE3" ∈ sweepValidModes := by decide

/-- C5: evaluation of `trace` at the failing inputs.  For every nonzero
`calcC` line 129 evaluates `calcMode[calc]` where `calc` is an unbound name,
so a `NameError` aborts the method after the channel-select and display
commands and no trace-math command is ever sent; for `calcC = 0` the method
completes without a math command.  The dictionary itself maps 1, 2, 3 to the
claimed math strings. -/
theorem c5_trace_math_name_error :
    trace "A" true true 1
      = ⟨[":TRACE:ACTIVE TRA", ":TRACE:STATE:TRA ON"], false,
         some (PyError.nameError "calc")⟩
    ∧ trace "A" true true 2
      = ⟨[":TRACE:ACTIVE TRA", ":TRACE:STATE:TRA ON"], false,
         some (PyError.nameError "calc")⟩
    ∧ trace "A" true true 3
      = ⟨[":TRACE:ACTIVE TRA", ":TRACE:STATE:TRA ON"], false,
         some (PyError.nameError "calc")⟩
    ∧ trace "A" true true 0
      = ⟨[":TRACE:ACTIVE TRA", ":TRACE:STATE:TRA ON"], false, none⟩
    ∧ calcMode 1 = some "A-B (LOG)"
    ∧ calcMode 2 = some "B-A (LOG)"
    ∧ calcMode 3 = some "A+B (LOG)" := by decide

/-- C6: evaluation of `level` at its defaults with `autoRefLevel = false`.
The manual reference-level command (index 1) carries the encoding of
`logScale` (`"1.0E1"`), not of `refLevel` (`"-1.0E1"`): source line 99 builds
it from `double2expStr(logScale)` and never uses `refLevel`.  The automatic
branch and the offset-level command behave as claimed. -/
theorem c6_level_relvel_encodes_logscale :
    level (-10) 10 false 5 0 true
      = [":DISPLAY:WINDOW:TRACE:Y1:SCALE:PDIVISION " ++ double2expStr 10,
         ":DISPLAY:WINDOW:Y1:SCALE:RELVEL " ++ double2expStr 10,
         ":DISPLAY:WINDOW:TRACE:Y2:SCALE:PDIVISION " ++ double2expStr 5,
         ":DISPLAY:WINDOW:TRACE:Y2:SCALE:AUTO ON"]
    ∧ double2expStr (10 : ℚ) = "1.0E1"
    ∧ double2expStr (-10 : ℚ) = "-1.0E1"
    ∧ (level (-10) 10 false 5 0 true)[1]?
        ≠ some (":DISPLAY:WINDOW:Y1:SCALE:RELVEL " ++ double2expStr (-10))
    ∧ (level (-10) 10 true 5 0 true)[1]?
        = some "CALCULATE:MARKER:MAXIMUM:SRLEVEL:AUTO"
    ∧ (level (-10) 10 false 5 7 false)[4]?
        = some (":DISPLAY:WINDOW:TRACE:Y2:SCALE:OLEVEL " ++ double2expStr 7) := by
  refine ⟨rfl, double2expStr_ten, double2expStr_neg_ten, ?_, rfl, rfl⟩
  have h : (level (-10) 10 false 5 0 true)[1]?
      = some (":DISPLAY:WINDOW:Y1:SCALE:RELVEL " ++ double2expStr 10) := rfl
  rw [h, double2expStr_ten, double2expStr_neg_ten]
  decide

/-- C7: `span` sends exactly two commands, the start-wavelength command first
with the decimal string of `start` and suffix `NM`, then the stop-wavelength
command with the decimal string of `stop` and suffix `NM`; in particular
`span 1520 1600` yields exactly the two commands containing `1520NM` and
`1600NM`. -/
theorem c7_span_start_then_stop :
    (∀ start stop : ℤ,
      span start stop
        = [":SENSE:WAVELENGTH:START " ++ intStr start ++ "NM",
           ":SENSE:WAVELENGTH:STOP " ++ intStr stop ++ "NM"]
      ∧ (span start stop).length = 2)
    ∧ span 1520 1600
        = [":SENSE:WAVELENGTH:START 1520NM", ":SENSE:WAVELENGTH:STOP 1600NM"]
    ∧ intStr 1520 = "1520"
    ∧ intStr 1600 = "1600" :=
  ⟨fun _ _ => ⟨rfl, rfl⟩, by decide, by decide, by decide⟩

/-- C8: an invalid channel is reported but suppresses nothing: `trace` (valid
set A–G) still sends the channel-select and display-state commands embedding
the upper-cased invalid channel, and `saveFile` (valid set A–C) still sends
its store-trace command embedding the upper-cased invalid channel. -/
theorem c8_invalid_channel_nonfatal :
    (∀ (channel : String) (write disp : Bool) (calcC : ℤ),
      pyUpper channel ∉ traceValidChannels →
        (trace channel write disp calcC).validationFailed = true
        ∧ (trace channel write disp calcC).sent
            = [":TRACE:ACTIVE TR" ++ pyUpper channel,
               ":TRACE:STATE:TR" ++ pyUpper channel ++ " "
                 ++ (if disp then "ON" else "OFF")])
    ∧ (∀ filename form channel memory : String,
      pyUpper channel ∉ saveFileValidChannels →
        (saveFile filename form channel memory).validationFailed = true
        ∧ (saveFile filename form channel memory).sent
            = [":MMEMORY:STORE:TRACE TR" ++ pyUpper channel ++ "," ++ form
                 ++ "\"" ++ filename ++ "\"," ++ memory]) := by
  constructor
  · intro channel write disp calcC h
    unfold trace
    by_cases hc : calcC = 0 <;> simp [hc, h]
  · intro filename form channel memory h
    unfold saveFile
    simp [h]

/-- C8 witness: channel `h` (upper-cased `H`, outside A–G) for `trace` and
channel `d` (upper-cased `D`, outside A–C) for `saveFile`. -/
theorem c8_invalid_channel_witness :
    (pyUpper "h" ∉ traceValidChannels
      ∧ ((trace "h" true false 0).validationFailed = true
         ∧ (trace "h" true false 0).sent
             = [":TRACE:ACTIVE TR" ++ pyUpper "h",
                ":TRACE:STATE:TR" ++ pyUpper "h" ++ " "
                  ++ (if false then "ON" else "OFF")]))
    ∧ (pyUpper "d" ∉ saveFileValidChannels
      ∧ ((saveFile "trace.csv" "CSV" "d" "EXT").validationFailed = true
         ∧ (saveFile "trace.csv" "CSV" "d" "EXT").sent
             = [":MMEMORY:STORE:TRACE TR" ++ pyUpper "d" ++ "," ++ "CSV"
                  ++ "\"" ++ "trace.csv" ++ "\"," ++ "EXT"])) :=
  ⟨⟨by decide, c8_invalid_channel_nonfatal.1 "h" true false 0 (by decide)⟩,
   ⟨by decide, c8_invalid_channel_nonfatal.2 "trace.csv" "CSV" "d" "EXT" (by decide)⟩⟩

/-- C9 counterexample: for the two-byte character `é` the transport accepting
only 1 of the 2 requested bytes is a short write, yet `OSA.send` compares the
accepted count against the character count (1) and reports the command sent
successfully — the completeness indication is wrong for this input. -/
theorem c9_short_write_reported_complete :
    "é".utf8ByteSize = 2
    ∧ "é".length = 1
    ∧ 1 < "é".utf8ByteSize
    ∧ sendReportsComplete "é" 1 = true := by decide

/-- C9 (amended): for every command text whose UTF-8 encoding has exactly one
byte per character (every ASCII command of this catalogue), `OSA.send`
reports the write complete iff the transport accepted exactly the requested
number of bytes, and reports — never raises on — a short write. -/
theorem c9_ascii_short_write_indication (s : String) (n : ℕ)
    (hascii : s.utf8ByteSize = s.length) :
    (sendReportsComplete s n = true ↔ n = s.utf8ByteSize)
    ∧ (n < s.utf8ByteSize → sendReportsComplete s n = false) := by
  unfold sendReportsComplete
  rw [hascii]
  constructor
  · exact beq_iff_eq
  · intro h
    exact beq_eq_false_iff_ne.mpr (Nat.ne_of_lt h)

/-- C9 witness: the amended claim at the reset command `*RST` with all 4
bytes accepted. -/
theorem c9_ascii_indication_witness :
    "*RST".utf8ByteSize = "*RST".length
    ∧ ((sendReportsComplete "*RST" 3 = true ↔ 3 = "*RST".utf8ByteSize)
       ∧ (3 < "*RST".utf8ByteSize → sendReportsComplete "*RST" 3 = false)) :=
  ⟨by decide, c9_ascii_short_write_indication "*RST" 3 (by decide)⟩

/-- C10: `OSA.send` judges completeness by comparing the accepted byte count
with the character count `len(sendStr)`; consequently, for every string whose
UTF-8 encoding occupies more bytes than it has characters, even a fully
delivered write is reported as incomplete. -/
theorem c10_completeness_compares_char_count :
    (∀ (s : String) (n : ℕ), sendReportsComplete s n = true ↔ n = s.length)
    ∧ (∀ s : String, s.length < s.utf8ByteSize →
        sendReportsComplete s s.utf8ByteSize = false) := by
  constructor
  · intro s n
    exact beq_iff_eq
  · intro s h
    exact beq_eq_false_iff_ne.mpr (ne_of_gt h)

/-- C10 witness: the fully delivered two-byte write of `é` is reported
incomplete. -/
theorem c10_multibyte_incomplete_witness :
    "é".length < "é".utf8ByteSize
    ∧ sendReportsComplete "é" "é".utf8ByteSize = false :=
  ⟨by decide, c10_completeness_compares_char_count.2 "é" (by decide)⟩
